import Mathlib

/-!
Shallow embedding of `mono/metadata/file-io.c` (Unity-Technologies/mono),
the MonoIO file-system icall layer.  Native Win32-style calls
(`GetFileAttributes`, `FindFirstFile`, `ReadFile`, `SetFilePointer`, ...)
are modelled as oracle values (`Except` of an error code and a result)
supplied as arguments; each embedded operation returns its result, the
final value of the `gint32 *error` out-parameter, and a trace of the
native calls it performed, so that statements such as "no native call is
made" or "the fallback is attempted only on a sharing violation" are
expressible.  Machine words are `Nat` bit patterns with explicit `% 2^32`
or `% 2^64` where the C arithmetic wraps.
-/

/-- Neutral success error code (`ERROR_SUCCESS`). -/
def ERROR_SUCCESS : Nat := 0

/-- Native code for "no file matched" (`ERROR_FILE_NOT_FOUND`). -/
def ERROR_FILE_NOT_FOUND : Nat := 2

/-- Native code for a sharing violation (`ERROR_SHARING_VIOLATION`). -/
def ERROR_SHARING_VIOLATION : Nat := 32

/-- Bit pattern of `INVALID_FILE_ATTRIBUTES` (`(DWORD)-1`). -/
def INVALID_FILE_ATTRIBUTES : Nat := 0xFFFFFFFF

/-- Bit pattern of `INVALID_SET_FILE_POINTER` (`(DWORD)-1`). -/
def INVALID_SET_FILE_POINTER : Nat := 0xFFFFFFFF

/-- Managed `FileShare.Read` bit. -/
def FileShare_Read : Nat := 1

/-- Managed `FileShare.Write` bit. -/
def FileShare_Write : Nat := 2

/-- Managed `FileShare.Delete` bit. -/
def FileShare_Delete : Nat := 4

/-- Native `FILE_SHARE_READ` bit. -/
def FILE_SHARE_READ : Nat := 1

/-- Native `FILE_SHARE_WRITE` bit. -/
def FILE_SHARE_WRITE : Nat := 2

/-- Native `FILE_SHARE_DELETE` bit. -/
def FILE_SHARE_DELETE : Nat := 4

/-- Modelled from the spec: the managed (neutral) `FileAttributes.Encrypted`
bit.  The numeric value comes from the managed `FileAttributes` enum, whose
header is not part of the sources here; the spec states that the neutral and
native attribute layouts coincide except for the encrypted bit, which must be
injected into the distinct native encrypted-attribute bit.  The standard
managed value is `0x4000`. -/
def FileAttributes_Encrypted : Nat := 0x4000

/-- Modelled from the spec: the native (io-layer) `FILE_ATTRIBUTE_ENCRYPTED`
bit.  Its header is not part of the sources here; per the spec it is a bit
distinct from the neutral encrypted bit (otherwise no injection would be
needed).  The io-layer value is `0x40`. -/
def FILE_ATTRIBUTE_ENCRYPTED : Nat := 0x40

/-- Managed `SeekOrigin.Begin`. -/
def SeekOrigin_Begin : Nat := 0

/-- Managed `SeekOrigin.Current`. -/
def SeekOrigin_Current : Nat := 1

/-- Managed `SeekOrigin.End`. -/
def SeekOrigin_End : Nat := 2

/-- Native `FILE_BEGIN`. -/
def FILE_BEGIN : Nat := 0

/-- Native `FILE_CURRENT`. -/
def FILE_CURRENT : Nat := 1

/-- Native `FILE_END`. -/
def FILE_END : Nat := 2

/-- Native `FILETIME`: a split 64-bit timestamp (two 32-bit words). -/
structure FILETIME where
  dwLowDateTime : Nat
  dwHighDateTime : Nat
  deriving Repr, DecidableEq

/-- Native `WIN32_FIND_DATA`: one directory-enumeration entry. -/
structure WIN32_FIND_DATA where
  dwFileAttributes : Nat
  ftCreationTime : FILETIME
  ftLastAccessTime : FILETIME
  ftLastWriteTime : FILETIME
  nFileSizeHigh : Nat
  nFileSizeLow : Nat
  cFileName : String
  deriving Repr, DecidableEq

/-- Native `WIN32_FILE_ATTRIBUTE_DATA`: result of the extended query. -/
structure WIN32_FILE_ATTRIBUTE_DATA where
  dwFileAttributes : Nat
  ftCreationTime : FILETIME
  ftLastAccessTime : FILETIME
  ftLastWriteTime : FILETIME
  nFileSizeHigh : Nat
  nFileSizeLow : Nat
  deriving Repr, DecidableEq

/-- Managed `MonoIOStat`: the neutral stat record filled by `GetFileStat`. -/
structure MonoIOStat where
  attributes : Nat
  creation_time : Nat
  last_access_time : Nat
  last_write_time : Nat
  length : Nat
  name : String
  deriving Repr, DecidableEq

/-- Trace element: one native call performed by an embedded operation. -/
inductive NCall where
  | getFileAttributesCall
  | getFileAttributesExCall
  | findFirstFileCall
  | findCloseCall
  | readFileCall
  | writeFileCall
  | createDirectoryCall
  | lockFileCall (pos_lo pos_hi len_lo len_hi : Nat)
  | setFilePointerCall (lo hi whence : Nat)
  | setEndOfFileCall
  deriving Repr, DecidableEq

/-- Trace element distinguishing writes to the `gint32 *error` out-parameter
from native calls, for claims about when the out-parameter is written. -/
inductive Ev where
  | setError (v : Nat)
  | nativeCall (c : NCall)
  deriving Repr, DecidableEq

/-- `convert_share` from file-io.c: OR together the native share bits for the
recognized managed bits, then collapse to `0` if any unrecognized bit is set
(the C test `mono_share & ~(FileShare_Read|FileShare_Write|FileShare_Delete)`
on a 32-bit value). -/
def convert_share (mono_share : Nat) : Nat :=
  let share :=
    (if mono_share &&& FileShare_Read ≠ 0 then FILE_SHARE_READ else 0) |||
    (if mono_share &&& FileShare_Write ≠ 0 then FILE_SHARE_WRITE else 0) |||
    (if mono_share &&& FileShare_Delete ≠ 0 then FILE_SHARE_DELETE else 0)
  if mono_share &&&
      (0xFFFFFFFF ^^^ (FileShare_Read ||| FileShare_Write ||| FileShare_Delete)) ≠ 0 then
    0
  else
    share

/-- `convert_seekorigin` from file-io.c (safe fallback: `FILE_CURRENT`). -/
def convert_seekorigin (origin : Nat) : Nat :=
  if origin = SeekOrigin_Begin then FILE_BEGIN
  else if origin = SeekOrigin_Current then FILE_CURRENT
  else if origin = SeekOrigin_End then FILE_END
  else FILE_CURRENT

/-- `convert_filetime` from file-io.c: `guint64 ticks = high; ticks <<= 32;
ticks += low;` — the 64-bit bit pattern of the assembled tick count. -/
def convert_filetime (ft : FILETIME) : Nat :=
  ((ft.dwHighDateTime <<< 32) + ft.dwLowDateTime) % 2 ^ 64

/-- `convert_attrs` from file-io.c: inject the native encrypted bit when the
managed encrypted bit is present; all other bits pass through. -/
def convert_attrs (attrs : Nat) : Nat :=
  if attrs &&& FileAttributes_Encrypted ≠ 0 then
    attrs ||| FILE_ATTRIBUTE_ENCRYPTED
  else
    attrs

/-- `convert_win32_file_attribute_data` from file-io.c: build the neutral stat
record; the length is `((gint64)high << 32) | low` as a 64-bit bit pattern. -/
def convert_win32_file_attribute_data (data : WIN32_FILE_ATTRIBUTE_DATA)
    (name : String) : MonoIOStat :=
  { attributes := data.dwFileAttributes
    creation_time := convert_filetime data.ftCreationTime
    last_access_time := convert_filetime data.ftLastAccessTime
    last_write_time := convert_filetime data.ftLastWriteTime
    length := ((data.nFileSizeHigh <<< 32) ||| data.nFileSizeLow) % 2 ^ 64
    name := name }

/-- High word of a 64-bit bit pattern (spec-side split, for the round-trip
claim about the timestamp/size codec). -/
def split64_high (v : Nat) : Nat := (v >>> 32) % 2 ^ 32

/-- Low word of a 64-bit bit pattern (spec-side split). -/
def split64_low (v : Nat) : Nat := v % 2 ^ 32

/-- Oracle for `get_file_attributes`: the outcome of the direct
`GetFileAttributes` call (`.ok` carries a non-sentinel attribute word,
`.error` the `GetLastError` code) and of the `FindFirstFile` fallback. -/
structure AttrEnv where
  direct : Except Nat Nat
  findFirst : Except Nat WIN32_FIND_DATA

/-- `get_file_attributes` from file-io.c.  `le0` is the thread's last-error
value on entry; the result is `(returned 32-bit word, last-error on exit,
native-call trace)`.  The direct query failing with exactly
`ERROR_SHARING_VIOLATION` triggers the single-entry find-first fallback;
any other failure, or a failing fallback, returns the original sentinel. -/
def get_file_attributes (le0 : Nat) (env : AttrEnv) : Nat × Nat × List NCall :=
  match env.direct with
  | .ok res => (res, le0, [.getFileAttributesCall])
  | .error e =>
    if e ≠ ERROR_SHARING_VIOLATION then
      (INVALID_FILE_ATTRIBUTES, e, [.getFileAttributesCall])
    else
      match env.findFirst with
      | .error e2 =>
        (INVALID_FILE_ATTRIBUTES, e2, [.getFileAttributesCall, .findFirstFileCall])
      | .ok fd =>
        (fd.dwFileAttributes, e,
          [.getFileAttributesCall, .findFirstFileCall, .findCloseCall])

/-- `ves_icall_System_IO_MonoIO_GetFileAttributes` from file-io.c: set the
out-parameter to success, run `get_file_attributes`, and store
`GetLastError ()` in the out-parameter when the returned `gint32` is `-1`. -/
def ves_icall_System_IO_MonoIO_GetFileAttributes (le0 : Nat) (env : AttrEnv) :
    Nat × Nat × List NCall :=
  let r := get_file_attributes le0 env
  (r.1, if r.1 = INVALID_FILE_ATTRIBUTES then r.2.1 else ERROR_SUCCESS, r.2.2)

/-- Copy the metadata fields of a find-first entry into the extended
attribute record, as the fallback branch of `get_file_attributes_ex` does. -/
def find_data_to_attribute_data (fd : WIN32_FIND_DATA) : WIN32_FILE_ATTRIBUTE_DATA :=
  { dwFileAttributes := fd.dwFileAttributes
    ftCreationTime := fd.ftCreationTime
    ftLastAccessTime := fd.ftLastAccessTime
    ftLastWriteTime := fd.ftLastWriteTime
    nFileSizeHigh := fd.nFileSizeHigh
    nFileSizeLow := fd.nFileSizeLow }

/-- Oracle for `get_file_attributes_ex`: outcome of `GetFileAttributesEx`
and of the `FindFirstFile` fallback. -/
structure ExAttrEnv where
  direct : Except Nat WIN32_FILE_ATTRIBUTE_DATA
  findFirst : Except Nat WIN32_FIND_DATA

/-- `get_file_attributes_ex` from file-io.c: same fallback discipline as
`get_file_attributes`, over the richer metadata record.  Result:
`(filled record on success, last-error on exit, native-call trace)`. -/
def get_file_attributes_ex (le0 : Nat) (env : ExAttrEnv) :
    Option WIN32_FILE_ATTRIBUTE_DATA × Nat × List NCall :=
  match env.direct with
  | .ok data => (some data, le0, [.getFileAttributesExCall])
  | .error e =>
    if e ≠ ERROR_SHARING_VIOLATION then
      (none, e, [.getFileAttributesExCall])
    else
      match env.findFirst with
      | .error e2 =>
        (none, e2, [.getFileAttributesExCall, .findFirstFileCall])
      | .ok fd =>
        (some (find_data_to_attribute_data fd), e,
          [.getFileAttributesExCall, .findFirstFileCall, .findCloseCall])

/-- The zeroed stat record (`memset (stat, 0, sizeof (MonoIOStat))`); the
name reference becomes null, modelled as the empty string. -/
def zero_stat : MonoIOStat :=
  { attributes := 0, creation_time := 0, last_access_time := 0
    last_write_time := 0, length := 0, name := "" }

/-- `ves_icall_System_IO_MonoIO_GetFileStat` from file-io.c: on success
convert the record (the name stored is the queried path); on failure set the
out-parameter from `GetLastError ()` and zero the stat record. -/
def ves_icall_System_IO_MonoIO_GetFileStat (path : String) (le0 : Nat)
    (env : ExAttrEnv) : Bool × Nat × MonoIOStat × List NCall :=
  match get_file_attributes_ex le0 env with
  | (some data, _, tr) =>
    (true, ERROR_SUCCESS, convert_win32_file_attribute_data data path, tr)
  | (none, le, tr) => (false, le, zero_stat, tr)

/-- `ves_icall_System_IO_MonoIO_Read` from file-io.c.  `destLen` is
`mono_array_length (dest)`; the native `ReadFile` outcome is the oracle
(`.ok n` = `n` bytes read, `.error e` = failure with `GetLastError () = e`).
Result: `(returned gint32, error out-parameter, native-call trace)`. -/
def ves_icall_System_IO_MonoIO_Read (destLen : Nat) (dest_offset count : Nat)
    (native : Except Nat Nat) : Int × Nat × List NCall :=
  if dest_offset + count > destLen then
    (0, ERROR_SUCCESS, [])
  else
    match native with
    | .ok n => ((n : Int), ERROR_SUCCESS, [.readFileCall])
    | .error e => (-1, e, [.readFileCall])

/-- `ves_icall_System_IO_MonoIO_Write` from file-io.c: identical bounds guard
and failure convention, over the native `WriteFile` outcome. -/
def ves_icall_System_IO_MonoIO_Write (srcLen : Nat) (src_offset count : Nat)
    (native : Except Nat Nat) : Int × Nat × List NCall :=
  if src_offset + count > srcLen then
    (0, ERROR_SUCCESS, [])
  else
    match native with
    | .ok n => ((n : Int), ERROR_SUCCESS, [.writeFileCall])
    | .error e => (-1, e, [.writeFileCall])

/-- `g_build_filename (dir, name, NULL)`: join with the path separator. -/
def build_filename (dir name : String) : String := dir ++ "/" ++ name

/-- The entry filter of the enumeration loop in
`ves_icall_System_IO_MonoIO_GetFileSystemEntries`: skip the "." and ".."
pseudo-entries, then keep entries with
`(data.dwFileAttributes & mask) == attrs` where `mask` has already been
passed through `convert_attrs`. -/
def gfse_kept (attrs mask2 : Nat) (d : WIN32_FIND_DATA) : Bool :=
  !(d.cFileName == "." || d.cFileName == "..") &&
    ((d.dwFileAttributes &&& mask2) == attrs)

/-- `ves_icall_System_IO_MonoIO_GetFileSystemEntries` from file-io.c.
Oracles: `ffRes` is the whole native enumeration stream (`.error e` =
`FindFirstFile` returned `INVALID_HANDLE_VALUE` with `GetLastError () = e`),
and `closeRes` is the `FindClose` outcome.  A find-first failure with
`ERROR_FILE_NOT_FOUND` yields an empty array and success; any other
find-first failure yields a null array and that error; a `FindClose` failure
discards the collected listing and yields a null array and its error. -/
def ves_icall_System_IO_MonoIO_GetFileSystemEntries (path : String)
    (ffRes : Except Nat (List WIN32_FIND_DATA)) (closeRes : Except Nat Unit)
    (attrs mask : Nat) : Option (List String) × Nat :=
  let mask2 := convert_attrs mask
  match ffRes with
  | .error find_error =>
    if find_error = ERROR_FILE_NOT_FOUND then (some [], ERROR_SUCCESS)
    else (none, find_error)
  | .ok entries =>
    let names := (entries.filter (gfse_kept attrs mask2)).map
      (fun d => build_filename path d.cFileName)
    match closeRes with
    | .ok _ => (some names, ERROR_SUCCESS)
    | .error e => (none, e)

/-- The inclusion predicate exactly as the claim words it (the raw mask, not
passed through `convert_attrs`): an entry is included iff it is not a
pseudo-entry and `(e.attributes & attributeMask) == attributeValue`. -/
def claim_included (attrs mask : Nat) (d : WIN32_FIND_DATA) : Bool :=
  !(d.cFileName == "." || d.cFileName == "..") &&
    ((d.dwFileAttributes &&& mask) == attrs)

/-- One native step of `ves_icall_System_IO_MonoIO_SetLength`, with the
32-bit word arguments passed to the pointer-moving steps. -/
inductive SLStep where
  | queryPos
  | moveTo (lo hi : Nat)
  | setEOF
  | restore (lo hi : Nat)
  deriving Repr, DecidableEq

/-- `ves_icall_System_IO_MonoIO_SetLength` from file-io.c.  `length` is the
64-bit bit pattern of the target length.  Oracles: `s1` is the
position-query `SetFilePointer (h, 0, &hi, FILE_CURRENT)` (`.ok (lo, hi)` =
returned low word and written high word); `s2` the move to the target
length; `s3` `SetEndOfFile`; `s4` the restoring `SetFilePointer`.  Result:
`(returned MonoBoolean, error out-parameter, steps performed in order)`. -/
def ves_icall_System_IO_MonoIO_SetLength (length : Nat)
    (s1 : Except Nat (Nat × Nat)) (s2 : Except Nat Nat) (s3 : Except Nat Unit)
    (s4 : Except Nat Nat) : Bool × Nat × List SLStep :=
  match s1 with
  | .error e => (false, e, [.queryPos])
  | .ok sv =>
    match s2 with
    | .error e =>
      (false, e, [.queryPos, .moveTo (length % 2 ^ 32) (length / 2 ^ 32)])
    | .ok _ =>
      match s3 with
      | .error e =>
        (false, e,
          [.queryPos, .moveTo (length % 2 ^ 32) (length / 2 ^ 32), .setEOF])
      | .ok _ =>
        match s4 with
        | .error e =>
          (false, e,
            [.queryPos, .moveTo (length % 2 ^ 32) (length / 2 ^ 32), .setEOF,
              .restore (sv.1 % 2 ^ 32) (sv.2 % 2 ^ 32)])
        | .ok _ =>
          (true, ERROR_SUCCESS,
            [.queryPos, .moveTo (length % 2 ^ 32) (length / 2 ^ 32), .setEOF,
              .restore (sv.1 % 2 ^ 32) (sv.2 % 2 ^ 32)])

/-- `ves_icall_System_IO_MonoIO_CreateDirectory` from file-io.c, with an
event trace recording every write to the error out-parameter and the native
call: success is written before the native call and overwritten only on
failure. -/
def ves_icall_System_IO_MonoIO_CreateDirectory (native : Except Nat Unit) :
    Bool × Nat × List Ev :=
  match native with
  | .ok _ =>
    (true, ERROR_SUCCESS,
      [.setError ERROR_SUCCESS, .nativeCall .createDirectoryCall])
  | .error e =>
    (false, e,
      [.setError ERROR_SUCCESS, .nativeCall .createDirectoryCall, .setError e])

/-- `ves_icall_System_IO_MonoIO_Lock` from file-io.c: `position` and
`length` are 64-bit bit patterns, split into 32-bit words for the native
`LockFile` call; the event trace records the error-out-parameter writes. -/
def ves_icall_System_IO_MonoIO_Lock (position length : Nat)
    (native : Except Nat Unit) : Nat × List Ev :=
  let c : NCall := .lockFileCall (position % 2 ^ 32) (position / 2 ^ 32)
    (length % 2 ^ 32) (length / 2 ^ 32)
  match native with
  | .ok _ => (ERROR_SUCCESS, [.setError ERROR_SUCCESS, .nativeCall c])
  | .error e =>
    (e, [.setError ERROR_SUCCESS, .nativeCall c, .setError e])

/-- `ves_icall_System_IO_MonoIO_Seek` from file-io.c.  `offset` is the
64-bit bit pattern of the requested offset; the native `SetFilePointer`
outcome is `(retLo, retHi, lastErr)`: the returned low word, the high word
written through the pointer, and the value `GetLastError ()` would return.
The error out-parameter is overwritten exactly when the returned low word
equals `INVALID_SET_FILE_POINTER`; the assembled 64-bit position
`offset | ((gint64)offset_hi << 32)` is returned in either case. -/
def ves_icall_System_IO_MonoIO_Seek (offset : Nat) (origin : Nat)
    (retLo retHi lastErr : Nat) : Nat × Nat × List Ev :=
  let o := retLo % 2 ^ 32
  let h := retHi % 2 ^ 32
  let call : Ev := .nativeCall
    (.setFilePointerCall (offset % 2 ^ 32) (offset / 2 ^ 32)
      (convert_seekorigin origin))
  let evs := [Ev.setError ERROR_SUCCESS, call] ++
    (if o = INVALID_SET_FILE_POINTER then [Ev.setError lastErr] else [])
  ((o ||| (h <<< 32)) % 2 ^ 64,
    (if o = INVALID_SET_FILE_POINTER then lastErr else ERROR_SUCCESS), evs)

/-! ## Theorems -/

/-- Disjoint high/low word composition: OR of a word shifted past 32 bits
with a low word below `2 ^ 32` coincides with addition. -/
theorem lor_high_low (hi lo : Nat) (h : lo < 2 ^ 32) :
    (hi <<< 32) ||| lo = (hi <<< 32) + lo := by
  rw [Nat.shiftLeft_eq, Nat.mul_comm]
  apply Nat.eq_of_testBit_eq
  intro j
  rw [Nat.testBit_lor, Nat.testBit_mul_pow_two_add _ h, Nat.testBit_mul_pow_two]
  by_cases hj : j < 32
  · have : ¬ (32 ≤ j) := by omega
    simp [hj, this]
  · have h32 : 32 ≤ j := by omega
    have : lo.testBit j = false :=
      Nat.testBit_lt_two_pow (lt_of_lt_of_le h (Nat.pow_le_pow_right (by omega) h32))
    simp [hj, h32, this]

/-- Claim C2: for every FileShare input that is a subset of
{Read, Write, Delete}, `convert_share` returns the bitwise OR of the
corresponding native share bits; for every input containing any bit outside
{Read, Write, Delete}, it returns zero (no sharing), never a partial OR. -/
theorem convert_share_or_and_collapse :
    (∀ r w d : Bool,
      convert_share ((cond r FileShare_Read 0) ||| (cond w FileShare_Write 0) |||
          (cond d FileShare_Delete 0)) =
        (cond r FILE_SHARE_READ 0) ||| (cond w FILE_SHARE_WRITE 0) |||
          (cond d FILE_SHARE_DELETE 0)) ∧
    (∀ s : Nat, s &&& 0xFFFFFFF8 ≠ 0 → convert_share s = 0) := by
  constructor
  · decide
  · intro s h
    have hm : (0xFFFFFFFF ^^^ (FileShare_Read ||| FileShare_Write ||| FileShare_Delete) : Nat)
        = 0xFFFFFFF8 := by decide
    simp only [convert_share, hm]
    simp [h]

/-- Witness for claim C2 at the concrete input `8` (a foreign bit). -/
theorem convert_share_or_and_collapse_witness :
    ((8 : Nat) &&& 0xFFFFFFF8 ≠ 0) ∧ convert_share 8 = 0 :=
  ⟨by decide, convert_share_or_and_collapse.2 8 (by decide)⟩

/-- Claim C7: decoding a (high, low) pair of 32-bit words into the neutral
64-bit value — via `convert_filetime` for timestamps and via the length
assembly of `convert_win32_file_attribute_data` for sizes — and splitting
that value back into high and low words reproduces the original pair
bit-for-bit. -/
theorem filetime_and_length_roundtrip (hi lo : Nat)
    (hhi : hi < 2 ^ 32) (hlo : lo < 2 ^ 32) :
    (split64_high (convert_filetime ⟨lo, hi⟩) = hi ∧
     split64_low (convert_filetime ⟨lo, hi⟩) = lo) ∧
    (∀ (a : Nat) (ct lat lwt : FILETIME) (name : String),
      split64_high (convert_win32_file_attribute_data
        ⟨a, ct, lat, lwt, hi, lo⟩ name).length = hi ∧
      split64_low (convert_win32_file_attribute_data
        ⟨a, ct, lat, lwt, hi, lo⟩ name).length = lo) := by
  have hlt : (hi <<< 32) + lo < 2 ^ 64 := by
    rw [Nat.shiftLeft_eq]
    have : (2 : Nat) ^ 32 * 2 ^ 32 = 2 ^ 64 := by norm_num
    nlinarith [Nat.mul_le_mul_right (2 ^ 32) (Nat.le_of_lt_succ (Nat.lt_succ_of_lt hhi))]
  constructor
  · have hft : convert_filetime ⟨lo, hi⟩ = (hi <<< 32) + lo := by
      simp only [convert_filetime]
      exact Nat.mod_eq_of_lt hlt
    rw [hft]
    constructor
    · simp only [split64_high, Nat.shiftRight_eq_div_pow, Nat.shiftLeft_eq]
      omega
    · simp only [split64_low, Nat.shiftLeft_eq]
      omega
  · intro a ct lat lwt name
    have hlen : (convert_win32_file_attribute_data ⟨a, ct, lat, lwt, hi, lo⟩ name).length
        = (hi <<< 32) + lo := by
      simp only [convert_win32_file_attribute_data, lor_high_low hi lo hlo]
      exact Nat.mod_eq_of_lt hlt
    rw [hlen]
    constructor
    · simp only [split64_high, Nat.shiftRight_eq_div_pow, Nat.shiftLeft_eq]
      omega
    · simp only [split64_low, Nat.shiftLeft_eq]
      omega

/-- Witness for claim C7 at the concrete pair (high, low) = (5, 7). -/
theorem filetime_and_length_roundtrip_witness :
    (5 : Nat) < 2 ^ 32 ∧ (7 : Nat) < 2 ^ 32 ∧
    split64_high (convert_filetime ⟨7, 5⟩) = 5 ∧
    split64_low (convert_filetime ⟨7, 5⟩) = 7 :=
  ⟨by norm_num, by norm_num,
    ((filetime_and_length_roundtrip 5 7 (by norm_num) (by norm_num)).1).1,
    ((filetime_and_length_roundtrip 5 7 (by norm_num) (by norm_num)).1).2⟩

/-- Claim C3: whenever offset + count exceeds the buffer length, Read and
Write return 0, leave the error out-parameter at SUCCESS, and perform no
native call on the handle. -/
theorem read_write_bounds_guard (len off cnt : Nat) (native : Except Nat Nat)
    (h : off + cnt > len) :
    ves_icall_System_IO_MonoIO_Read len off cnt native =
      (0, ERROR_SUCCESS, []) ∧
    ves_icall_System_IO_MonoIO_Write len off cnt native =
      (0, ERROR_SUCCESS, []) := by
  constructor
  · simp [ves_icall_System_IO_MonoIO_Read, h]
  · simp [ves_icall_System_IO_MonoIO_Write, h]

/-- Witness for claim C3 with buffer length 2, offset 1, count 2. -/
theorem read_write_bounds_guard_witness :
    (1 + 2 > 2) ∧
    ves_icall_System_IO_MonoIO_Read 2 1 2 (.ok 7) = (0, ERROR_SUCCESS, []) :=
  ⟨by omega, (read_write_bounds_guard 2 1 2 (.ok 7) (by omega)).1⟩

/-- Claim C6: SetLength performs exactly the four native steps in order
(query/save position, move to target length, set end-of-file, restore the
saved position); a failure at any step yields that step's native error,
returns false, and performs none of the remaining steps. -/
theorem setlength_four_steps (len e lo hi s2v s4v : Nat)
    (s2 : Except Nat Nat) (s3 : Except Nat Unit) (s4 : Except Nat Nat) :
    (ves_icall_System_IO_MonoIO_SetLength len (.error e) s2 s3 s4 =
      (false, e, [.queryPos])) ∧
    (ves_icall_System_IO_MonoIO_SetLength len (.ok (lo, hi)) (.error e) s3 s4 =
      (false, e, [.queryPos, .moveTo (len % 2 ^ 32) (len / 2 ^ 32)])) ∧
    (ves_icall_System_IO_MonoIO_SetLength len (.ok (lo, hi)) (.ok s2v) (.error e) s4 =
      (false, e,
        [.queryPos, .moveTo (len % 2 ^ 32) (len / 2 ^ 32), .setEOF])) ∧
    (ves_icall_System_IO_MonoIO_SetLength len (.ok (lo, hi)) (.ok s2v) (.ok ()) (.error e) =
      (false, e,
        [.queryPos, .moveTo (len % 2 ^ 32) (len / 2 ^ 32), .setEOF,
          .restore (lo % 2 ^ 32) (hi % 2 ^ 32)])) ∧
    (ves_icall_System_IO_MonoIO_SetLength len (.ok (lo, hi)) (.ok s2v) (.ok ()) (.ok s4v) =
      (true, ERROR_SUCCESS,
        [.queryPos, .moveTo (len % 2 ^ 32) (len / 2 ^ 32), .setEOF,
          .restore (lo % 2 ^ 32) (hi % 2 ^ 32)])) :=
  ⟨rfl, rfl, rfl, rfl, rfl⟩

/-- Claim C9: the cited fallible operations (CreateDirectory, Lock) write
SUCCESS to the error out-parameter before the native call is attempted,
overwrite it only when the native call fails, and leave it at SUCCESS on a
fully successful operation. -/
theorem error_out_param_discipline (pos len e : Nat) :
    (ves_icall_System_IO_MonoIO_CreateDirectory (.ok ()) =
      (true, ERROR_SUCCESS,
        [.setError ERROR_SUCCESS, .nativeCall .createDirectoryCall])) ∧
    (ves_icall_System_IO_MonoIO_CreateDirectory (.error e) =
      (false, e,
        [.setError ERROR_SUCCESS, .nativeCall .createDirectoryCall,
          .setError e])) ∧
    (ves_icall_System_IO_MonoIO_Lock pos len (.ok ()) =
      (ERROR_SUCCESS,
        [.setError ERROR_SUCCESS,
          .nativeCall (.lockFileCall (pos % 2 ^ 32) (pos / 2 ^ 32)
            (len % 2 ^ 32) (len / 2 ^ 32))])) ∧
    (ves_icall_System_IO_MonoIO_Lock pos len (.error e) =
      (e,
        [.setError ERROR_SUCCESS,
          .nativeCall (.lockFileCall (pos % 2 ^ 32) (pos / 2 ^ 32)
            (len % 2 ^ 32) (len / 2 ^ 32)), .setError e])) :=
  ⟨rfl, rfl, rfl, rfl⟩

/-- Claim C10: Seek overwrites the error out-parameter exactly when the low
32 bits returned by the native set-file-pointer call equal the sentinel
`0xFFFFFFFF` (even for an otherwise successful seek whose position has that
low word), and the assembled 64-bit position is returned in either case. -/
theorem seek_sentinel_behaviour (offset origin retLo retHi lastErr : Nat)
    (hlo : retLo < 2 ^ 32) (hhi : retHi < 2 ^ 32) :
    ((ves_icall_System_IO_MonoIO_Seek offset origin retLo retHi lastErr).1 =
      retLo ||| (retHi <<< 32)) ∧
    (retLo = INVALID_SET_FILE_POINTER →
      (ves_icall_System_IO_MonoIO_Seek offset origin retLo retHi lastErr).2.1 =
        lastErr ∧
      Ev.setError lastErr ∈
        (ves_icall_System_IO_MonoIO_Seek offset origin retLo retHi lastErr).2.2) ∧
    (retLo ≠ INVALID_SET_FILE_POINTER →
      (ves_icall_System_IO_MonoIO_Seek offset origin retLo retHi lastErr).2.1 =
        ERROR_SUCCESS ∧
      (ves_icall_System_IO_MonoIO_Seek offset origin retLo retHi lastErr).2.2 =
        [Ev.setError ERROR_SUCCESS,
          .nativeCall (.setFilePointerCall (offset % 2 ^ 32) (offset / 2 ^ 32)
            (convert_seekorigin origin))]) := by
  have h1 : retLo % 2 ^ 32 = retLo := Nat.mod_eq_of_lt hlo
  have h2 : retHi % 2 ^ 32 = retHi := Nat.mod_eq_of_lt hhi
  have hsum : (retHi <<< 32) + retLo < 2 ^ 64 := by
    rw [Nat.shiftLeft_eq]
    have : (2 : Nat) ^ 32 * 2 ^ 32 = 2 ^ 64 := by norm_num
    nlinarith [Nat.mul_le_mul_right (2 ^ 32) (Nat.le_of_lt_succ (Nat.lt_succ_of_lt hhi))]
  have hassemble : (retLo ||| (retHi <<< 32)) % 2 ^ 64 = retLo ||| (retHi <<< 32) := by
    rw [Nat.lor_comm, lor_high_low _ _ hlo]
    exact Nat.mod_eq_of_lt hsum
  have hred : ves_icall_System_IO_MonoIO_Seek offset origin retLo retHi lastErr =
      ((retLo ||| (retHi <<< 32)) % 2 ^ 64,
        (if retLo = INVALID_SET_FILE_POINTER then lastErr else ERROR_SUCCESS),
        [Ev.setError ERROR_SUCCESS,
          .nativeCall (.setFilePointerCall (offset % 2 ^ 32) (offset / 2 ^ 32)
            (convert_seekorigin origin))] ++
          (if retLo = INVALID_SET_FILE_POINTER then [Ev.setError lastErr]
            else [])) := by
    simp only [ves_icall_System_IO_MonoIO_Seek, h1, h2]
  refine ⟨?_, ?_, ?_⟩
  · rw [hred]
    exact hassemble
  · intro hs
    rw [hred]
    simp [hs]
  · intro hs
    rw [hred]
    simp [hs]

/-- Witness for claim C10: a native result whose low word is the sentinel
overwrites the error out-parameter, and the assembled position is returned. -/
theorem seek_sentinel_behaviour_witness :
    (0xFFFFFFFF : Nat) < 2 ^ 32 ∧ (1 : Nat) < 2 ^ 32 ∧
    (ves_icall_System_IO_MonoIO_Seek 0 0 0xFFFFFFFF 1 7).2.1 = 7 ∧
    (ves_icall_System_IO_MonoIO_Seek 0 0 0xFFFFFFFF 1 7).1 =
      (0xFFFFFFFF ||| (1 <<< 32)) :=
  ⟨by norm_num, by norm_num,
    ((seek_sentinel_behaviour 0 0 0xFFFFFFFF 1 7 (by norm_num) (by norm_num)).2.1
      rfl).1,
    (seek_sentinel_behaviour 0 0 0xFFFFFFFF 1 7 (by norm_num) (by norm_num)).1⟩

/-- Claim C5: a find-first failure with the distinguished file-not-found
code yields an empty sequence and SUCCESS; any other find-first failure
yields no sequence (null) and that error code. -/
theorem gfse_findfirst_failure (path : String) (closeRes : Except Nat Unit)
    (attrs mask e : Nat) :
    (ves_icall_System_IO_MonoIO_GetFileSystemEntries path
      (.error ERROR_FILE_NOT_FOUND) closeRes attrs mask =
        (some [], ERROR_SUCCESS)) ∧
    (e ≠ ERROR_FILE_NOT_FOUND →
      ves_icall_System_IO_MonoIO_GetFileSystemEntries path
        (.error e) closeRes attrs mask = (none, e)) := by
  constructor
  · simp [ves_icall_System_IO_MonoIO_GetFileSystemEntries]
  · intro h
    simp [ves_icall_System_IO_MonoIO_GetFileSystemEntries, h]

/-- Witness for claim C5 at the concrete non-file-not-found error 5. -/
theorem gfse_findfirst_failure_witness :
    (5 : Nat) ≠ ERROR_FILE_NOT_FOUND ∧
    ves_icall_System_IO_MonoIO_GetFileSystemEntries "d" (.error 5) (.ok ()) 0 0 =
      (none, 5) :=
  ⟨by decide, (gfse_findfirst_failure "d" (.ok ()) 0 0 5).2 (by decide)⟩

/-- Claim C8: when the enumeration itself succeeded but the terminating
close-enumeration call fails, the collected listing is discarded: the result
is no sequence (null) and the error out-parameter holds the close call's
native error. -/
theorem gfse_close_failure (path : String) (entries : List WIN32_FIND_DATA)
    (attrs mask e : Nat) :
    ves_icall_System_IO_MonoIO_GetFileSystemEntries path (.ok entries)
      (.error e) attrs mask = (none, e) := rfl

/-- Claim C4 (amended): the returned sequence contains exactly the native
entries that are neither "." nor ".." and whose attributes masked with the
converted mask (`convert_attrs attributeMask`, which injects the native
encrypted bit when the neutral Encrypted bit is set) equal the attribute
value; pseudo-entries never pass the filter, and with mask = value = 0 every
non-pseudo entry is returned. -/
theorem gfse_entry_filter (path : String) (entries : List WIN32_FIND_DATA)
    (attrs mask : Nat) :
    (ves_icall_System_IO_MonoIO_GetFileSystemEntries path (.ok entries)
        (.ok ()) attrs mask =
      (some ((entries.filter (gfse_kept attrs (convert_attrs mask))).map
        (fun d => build_filename path d.cFileName)), ERROR_SUCCESS)) ∧
    (∀ s : String,
      s ∈ (entries.filter (gfse_kept attrs (convert_attrs mask))).map
          (fun d => build_filename path d.cFileName) ↔
        ∃ d, d ∈ entries ∧ gfse_kept attrs (convert_attrs mask) d = true ∧
          s = build_filename path d.cFileName) ∧
    (∀ d, gfse_kept attrs (convert_attrs mask) d = true →
      d.cFileName ≠ "." ∧ d.cFileName ≠ "..") ∧
    (ves_icall_System_IO_MonoIO_GetFileSystemEntries path (.ok entries)
        (.ok ()) 0 0 =
      (some ((entries.filter
          (fun d => !(d.cFileName == "." || d.cFileName == ".."))).map
        (fun d => build_filename path d.cFileName)), ERROR_SUCCESS)) := by
  refine ⟨rfl, ?_, ?_, ?_⟩
  · intro s
    simp only [List.mem_map, List.mem_filter]
    constructor
    · rintro ⟨d, ⟨hd, hk⟩, hs⟩
      exact ⟨d, hd, hk, hs.symm⟩
    · rintro ⟨d, hd, hk, hs⟩
      exact ⟨d, ⟨hd, hk⟩, hs.symm⟩
  · intro d h
    simp [gfse_kept] at h
    tauto
  · have h0 : gfse_kept 0 (convert_attrs 0) =
        fun d : WIN32_FIND_DATA => !(d.cFileName == "." || d.cFileName == "..") := by
      funext d
      simp [gfse_kept, convert_attrs]
    rw [show ves_icall_System_IO_MonoIO_GetFileSystemEntries path (.ok entries)
          (.ok ()) 0 0 =
        (some ((entries.filter (gfse_kept 0 (convert_attrs 0))).map
          (fun d => build_filename path d.cFileName)), ERROR_SUCCESS) from rfl,
      h0]

/-- Witness for claim C4 (amended) at a concrete non-pseudo entry. -/
theorem gfse_entry_filter_witness :
    gfse_kept 0 (convert_attrs 0) ⟨16, ⟨0, 0⟩, ⟨0, 0⟩, ⟨0, 0⟩, 0, 0, "a"⟩ = true ∧
    ("a" : String) ≠ "." ∧ ("a" : String) ≠ ".." :=
  ⟨rfl,
    (gfse_entry_filter "d" [] 0 0).2.2.1
      ⟨16, ⟨0, 0⟩, ⟨0, 0⟩, ⟨0, 0⟩, 0, 0, "a"⟩ rfl⟩

/-- Counterexample to claim C4 as stated: with attributeValue 0 and
attributeMask 0x4000 (the neutral Encrypted bit), the entry "a" with native
attributes 0x40 satisfies the claim's raw-mask predicate
`(e.attributes & attributeMask) == attributeValue`, yet the enumeration
returns the empty sequence, because the code masks with
`convert_attrs 0x4000 = 0x4040`. -/
theorem gfse_claim_counterexample :
    claim_included 0 0x4000
        ⟨0x40, ⟨0, 0⟩, ⟨0, 0⟩, ⟨0, 0⟩, 0, 0, "a"⟩ = true ∧
    ves_icall_System_IO_MonoIO_GetFileSystemEntries "d"
        (.ok [⟨0x40, ⟨0, 0⟩, ⟨0, 0⟩, ⟨0, 0⟩, 0, 0, "a"⟩]) (.ok ()) 0 0x4000 =
      (some [], ERROR_SUCCESS) :=
  ⟨rfl, rfl⟩

/-- Claim C1: GetAttributes and GetStat first issue the direct native query;
exactly a sharing-violation failure triggers the single-entry find-first
fallback, whose success yields the entry's attributes with SUCCESS; any
other direct failure returns that original error with no fallback attempted;
and a failing fallback propagates the original direct-query failure result. -/
theorem attr_fallback_spec (le0 a e e2 : Nat) (fd : WIN32_FIND_DATA)
    (d : WIN32_FILE_ATTRIBUTE_DATA) (ff : Except Nat WIN32_FIND_DATA)
    (path : String) :
    (get_file_attributes le0 ⟨.ok a, ff⟩ = (a, le0, [.getFileAttributesCall])) ∧
    (e ≠ ERROR_SHARING_VIOLATION →
      ves_icall_System_IO_MonoIO_GetFileAttributes le0 ⟨.error e, ff⟩ =
        (INVALID_FILE_ATTRIBUTES, e, [.getFileAttributesCall])) ∧
    (fd.dwFileAttributes ≠ INVALID_FILE_ATTRIBUTES →
      ves_icall_System_IO_MonoIO_GetFileAttributes le0
          ⟨.error ERROR_SHARING_VIOLATION, .ok fd⟩ =
        (fd.dwFileAttributes, ERROR_SUCCESS,
          [.getFileAttributesCall, .findFirstFileCall, .findCloseCall])) ∧
    (ves_icall_System_IO_MonoIO_GetFileAttributes le0
        ⟨.error ERROR_SHARING_VIOLATION, .error e2⟩ =
      (INVALID_FILE_ATTRIBUTES, e2,
        [.getFileAttributesCall, .findFirstFileCall])) ∧
    (ves_icall_System_IO_MonoIO_GetFileStat path le0 ⟨.ok d, ff⟩ =
      (true, ERROR_SUCCESS, convert_win32_file_attribute_data d path,
        [.getFileAttributesExCall])) ∧
    (e ≠ ERROR_SHARING_VIOLATION →
      ves_icall_System_IO_MonoIO_GetFileStat path le0 ⟨.error e, ff⟩ =
        (false, e, zero_stat, [.getFileAttributesExCall])) ∧
    (ves_icall_System_IO_MonoIO_GetFileStat path le0
        ⟨.error ERROR_SHARING_VIOLATION, .ok fd⟩ =
      (true, ERROR_SUCCESS,
        convert_win32_file_attribute_data (find_data_to_attribute_data fd) path,
        [.getFileAttributesExCall, .findFirstFileCall, .findCloseCall])) ∧
    (ves_icall_System_IO_MonoIO_GetFileStat path le0
        ⟨.error ERROR_SHARING_VIOLATION, .error e2⟩ =
      (false, e2, zero_stat,
        [.getFileAttributesExCall, .findFirstFileCall])) := by
  refine ⟨rfl, ?_, ?_, ?_, rfl, ?_, ?_, ?_⟩
  · intro h
    simp [ves_icall_System_IO_MonoIO_GetFileAttributes, get_file_attributes, h]
  · intro h
    simp [ves_icall_System_IO_MonoIO_GetFileAttributes, get_file_attributes, h]
  · simp [ves_icall_System_IO_MonoIO_GetFileAttributes, get_file_attributes]
  · intro h
    simp [ves_icall_System_IO_MonoIO_GetFileStat, get_file_attributes_ex, h]
  · simp [ves_icall_System_IO_MonoIO_GetFileStat, get_file_attributes_ex]
  · simp [ves_icall_System_IO_MonoIO_GetFileStat, get_file_attributes_ex]

/-- Witness for claim C1: a non-sharing-violation failure (code 5) is
returned directly, and a sharing violation followed by a successful
find-first yields the entry's attributes with SUCCESS. -/
theorem attr_fallback_spec_witness :
    ((5 : Nat) ≠ ERROR_SHARING_VIOLATION) ∧
    ves_icall_System_IO_MonoIO_GetFileAttributes 0 ⟨.error 5, .error 9⟩ =
      (INVALID_FILE_ATTRIBUTES, 5, [.getFileAttributesCall]) ∧
    ves_icall_System_IO_MonoIO_GetFileAttributes 0
        ⟨.error ERROR_SHARING_VIOLATION,
          .ok ⟨16, ⟨0, 0⟩, ⟨0, 0⟩, ⟨0, 0⟩, 0, 0, "n"⟩⟩ =
      (16, ERROR_SUCCESS,
        [.getFileAttributesCall, .findFirstFileCall, .findCloseCall]) :=
  ⟨by decide,
    (attr_fallback_spec 0 0 5 9 ⟨16, ⟨0, 0⟩, ⟨0, 0⟩, ⟨0, 0⟩, 0, 0, "n"⟩
      ⟨0, ⟨0, 0⟩, ⟨0, 0⟩, ⟨0, 0⟩, 0, 0⟩ (.error 9) "p").2.1 (by decide),
    (attr_fallback_spec 0 0 5 9 ⟨16, ⟨0, 0⟩, ⟨0, 0⟩, ⟨0, 0⟩, 0, 0, "n"⟩
      ⟨0, ⟨0, 0⟩, ⟨0, 0⟩, ⟨0, 0⟩, 0, 0⟩ (.error 9) "p").2.2.1 (by decide)⟩
